import Mathlib

/-!
# Verification of the home-control-hq command dispatch and Hue synchronization engines

This file gives a shallow embedding, in Lean 4, of the core logic of the
`home-control-hq` repository:

* `src/service_manager.ts` — the command registry / dispatcher
  (`ServiceManager.dispatchCommand`, `distribute`, `onClientDisconnected`);
* `src/services/philips_hue/interface.ts` — the Hue bridge snapshot model
  (`composeState`, `findGroupIdOrThrow`, `synchronize`, `update`,
  `updateBridge`).

JavaScript exceptions are modelled by `Except`; the mutable fields
(`ServiceManager.subscriptions`, `Interface.bridge`) are threaded as explicit
state; JS `Map`s are association lists in insertion order (first hit wins on
lookup, matching `Map` semantics where keys are unique); JS `Set`s are
duplicate-free lists in insertion order.  Machine numbers of the source are
modelled as `Int` (all the values the claims touch are produced by
`Math.floor` and are integral).
-/

/-! ## JSON-ish primitive values

Command parameters are declared with `type ∈ {boolean, number, string}` and the
dispatcher type-checks raw values with `typeof`; the subscription keys and the
payload fields the claims inspect are all primitives, so the embedding models
exactly these three primitive shapes. -/

deriving instance DecidableEq for Except

/-- A primitive JSON value (boolean, number or string), as carried by command
parameter bags, subscription parameter lists, and broadcast payload fields. -/
inductive Value where
  | bool (b : Bool)
  | num (n : Int)
  | str (s : String)
deriving DecidableEq, Repr

/-- A flat JSON object: an ordered list of key/value fields with unique keys
(JS object property order). -/
abbrev Obj : Type := List (String × Value)

/-- JS property read `o[k]` / `o.hasOwnProperty(k)`: the first field named `k`. -/
def objGet (o : Obj) (k : String) : Option Value :=
  (o.find? (fun p => p.1 == k)).map (fun p => p.2)

/-- JS property assignment `o[k] = v`: overwrite in place when the key exists
(property order is preserved), otherwise append the new field. -/
def objInsert (o : Obj) (k : String) (v : Value) : Obj :=
  if o.any (fun p => p.1 == k)
  then o.map (fun p => if p.1 == k then (k, v) else p)
  else o ++ [(k, v)]

/-- JS truthiness of an optionally-present primitive value (`undefined`, `false`,
`0` and `""` are falsy). -/
def truthy : Option Value → Bool
  | none => false
  | some (.bool b) => b
  | some (.num n) => n != 0
  | some (.str s) => s != ""

/-- The object literal `{ command, ...message }` built by
`ServiceManager.distribute` (service_manager.ts line 232): a `command` field
first, then every field of `message` spread over it (a `command` key inside
`message` therefore overwrites the first field). -/
def mkBroadcast (command : String) (message : Obj) : Obj :=
  message.foldl (fun o p => objInsert o p.1 p.2) [("command", Value.str command)]

/-! ## Command registry and dispatcher (`src/service_manager.ts`)

The handler result objects (`Promise<object>`) are never inspected by the
dispatcher, so their type is kept abstract as a parameter `ρ`. -/

/-- The declared type of a service command parameter
(`ServiceCommandParameter.type` in `src/service.ts`). -/
inductive ParamType where
  | boolean
  | number
  | string
deriving DecidableEq, Repr

/-- `typeof value === description.type` for a primitive value. -/
def typeMatches : Value → ParamType → Bool
  | .bool _, .boolean => true
  | .num _, .number => true
  | .str _, .string => true
  | _, _ => false

/-- `ServiceCommandParameter` (src/service.ts lines 12–21): parameter name, the
`optional` flag (absent means `false`), and the declared primitive type. -/
structure ServiceCommandParameter where
  name : String
  optional : Bool
  type : ParamType
deriving DecidableEq, Repr

/-- A registered command: `ServiceCommand & ServiceCommandMeta` as stored in
`ServiceManager.commands` (service_manager.ts lines 13, 35, 59–63).  The
handler is an abstract function from the positional argument list to either a
thrown error (modelled as a `String`) or a result object of type `ρ`. -/
structure RegisteredCommand (ρ : Type) where
  service : String
  command : String
  description : String
  parameters : List ServiceCommandParameter
  subscribe : Bool
  handler : List Value → Except String ρ

/-- `SubscriptionInfo` (service_manager.ts lines 16–25).  The JS `Set` of
clients is a duplicate-free list in insertion order; clients are identified by
numbers. -/
structure SubscriptionInfo where
  clients : List Nat
  command : String
  parameters : List Value
deriving DecidableEq, Repr

/-- The mutable state of a `ServiceManager`: the command registry (a `Map`
keyed by command identifier) and the subscription array. -/
structure ServiceManager (ρ : Type) where
  commands : List (String × RegisteredCommand ρ)
  subscriptions : List SubscriptionInfo

/-- `Map.get`: the first entry with the given key (keys of a JS `Map` are
unique, so first-hit lookup agrees with it). -/
def mapGet {α β : Type} [BEq α] (m : List (α × β)) (k : α) : Option β :=
  (m.find? (fun p => p.1 == k)).map (fun p => p.2)

/-- The errors `dispatchCommand` can throw (service_manager.ts lines 111–137). -/
inductive DispatchError where
  | missingParameter (command name : String)
  | typeMismatch (name : String) (expected : ParamType) (actual : Value)
  | handlerError (e : String)
deriving DecidableEq, Repr

/-- The parameter-collection loop of `dispatchCommand` (service_manager.ts
lines 111–137).  For each declared parameter in declaration order: when the
raw bag has no own property of that name, the code tests
`!parameters.optional` — the truthiness of an `optional` property **of the raw
parameter bag** (line 114), not the declaration's `optional` flag — throwing
`Missing parameter` when falsy and `break`ing out of the loop when truthy;
when the property is present it is `typeof`-checked against the declared type
and pushed onto the positional argument list.  (The `default:` arm of the
`switch` is unreachable: the declared type is the closed union
`boolean | number | string`.) -/
def collectParameters (command : String) :
    List ServiceCommandParameter → Obj → Except DispatchError (List Value)
  | [], _ => .ok []
  | d :: rest, bag =>
    match objGet bag d.name with
    | none =>
      if truthy (objGet bag "optional")
      then .ok []
      else .error (.missingParameter command d.name)
    | some v =>
      if typeMatches v d.type
      then (collectParameters command rest bag).map (fun args => v :: args)
      else .error (.typeMismatch d.name d.type v)

/-- Does a subscription exactly match a `(command, parameters)` key, via the
`deep-equal` test of service_manager.ts lines 145–149 / 225–229? -/
def matchesKey (cmd : String) (args : List Value) (s : SubscriptionInfo) : Bool :=
  s.command == cmd && s.parameters == args

/-- Steps (1) and (2) of the subscription bookkeeping in `dispatchCommand`
(service_manager.ts lines 141–167): scan for the first subscription whose
command and parameters match; add the client to its set when not already
present (the set add is idempotent); when no subscription matches, push a new
one holding just this client onto the end of the array. -/
def subscribeClient : List SubscriptionInfo → Nat → String → List Value →
    List SubscriptionInfo
  | [], client, cmd, args => [⟨[client], cmd, args⟩]
  | s :: rest, client, cmd, args =>
    if matchesKey cmd args s then
      (if s.clients.contains client then s
       else { s with clients := s.clients ++ [client] }) :: rest
    else
      s :: subscribeClient rest client cmd args

/-- The `command` / `description` / `parameters` projection of a registered
command returned by the `service-commands` introspection
(service_manager.ts lines 187–191). -/
structure CommandInfo where
  command : String
  description : String
  parameters : List ServiceCommandParameter
deriving DecidableEq, Repr

/-- The two shapes of non-null object `dispatchCommand` can resolve with: a
handler result, or the `{ commands }` listing of `handleServiceCommands`. -/
inductive DispatchResult (ρ : Type) where
  | handlerResult (r : ρ)
  | commandListing (commands : List CommandInfo)

/-- `ServiceManager.handleServiceCommands` (service_manager.ts lines 181–195):
the descriptors of every registered command owned by the given service, in
registry order.  (The strict comparison `command.service !== service` can only
pass for a string-valued `service` argument.) -/
def handleServiceCommands {ρ : Type} (sm : ServiceManager ρ) (service : Option Value) :
    List CommandInfo :=
  (sm.commands.map (fun p => p.2)).filterMap (fun c =>
    if (match service with
        | some (.str s) => c.service == s
        | _ => false)
    then some ⟨c.command, c.description, c.parameters⟩
    else none)

/-- `ServiceManager.dispatchCommand` (service_manager.ts lines 103–177).
Returns the updated manager state together with the result (`none` models the
`null` return for unknown commands).  An unknown command named
`service-commands` resolves with the introspection listing; otherwise the
declared parameters are collected from the raw bag, the handler is invoked on
the positional argument list (a thrown handler error propagates), and — for
`subscribe` commands — the client is subscribed under the
`(command, arguments)` key. -/
def dispatchCommand {ρ : Type} (sm : ServiceManager ρ) (client : Nat)
    (command : String) (bag : Obj) :
    Except DispatchError (Option (DispatchResult ρ) × ServiceManager ρ) :=
  match mapGet sm.commands command with
  | none =>
    if command == "service-commands"
    then .ok (some (.commandListing (handleServiceCommands sm (objGet bag "service"))), sm)
    else .ok (none, sm)
  | some sc =>
    match collectParameters command sc.parameters bag with
    | .error e => .error e
    | .ok args =>
      match sc.handler args with
      | .error e => .error (.handlerError e)
      | .ok result =>
        if sc.subscribe then
          .ok (some (.handlerResult result),
               { sm with subscriptions := subscribeClient sm.subscriptions client command args })
        else
          .ok (some (.handlerResult result), sm)

/-- `ServiceManager.distribute` (service_manager.ts lines 221–236): for every
subscription exactly matching the `(command, parameters)` key, in array order,
send `{ command, ...message }` to every client in its set, in set order.  The
result is the ordered list of (client, payload) sends. -/
def distribute {ρ : Type} (sm : ServiceManager ρ) (command : String)
    (parameters : List Value) (message : Obj) : List (Nat × Obj) :=
  (sm.subscriptions.filter (matchesKey command parameters)).flatMap
    (fun s => s.clients.map (fun c => (c, mkBroadcast command message)))

/-- `ServiceManager.onClientDisconnected` (service_manager.ts lines 240–243):
delete the client from every subscription's set. -/
def onClientDisconnected {ρ : Type} (sm : ServiceManager ρ) (client : Nat) :
    ServiceManager ρ :=
  { sm with
    subscriptions :=
      sm.subscriptions.map (fun s =>
        { s with clients := s.clients.filter (fun c => c != client) }) }

/-! ### Counting helpers used to state the delivery claims -/

/-- Number of times a client occurs across the subscriptions matching a
`(command, parameters)` key. -/
def keyClientCount (subs : List SubscriptionInfo) (cmd : String)
    (args : List Value) (client : Nat) : Nat :=
  ((subs.filter (matchesKey cmd args)).map (fun s => s.clients.count client)).sum

/-- Number of messages a given client receives in a list of sends. -/
def deliveries (sends : List (Nat × Obj)) (client : Nat) : Nat :=
  (sends.filter (fun p => p.1 == client)).length


/-! ## Philips Hue bridge snapshot model (`src/services/philips_hue/interface.ts`)

The model lives in a `Hue` namespace (the source's `Group`, `Light`, `State`
names collide with Mathlib); the field named `on` in the source is written
`«on»` (plain `on` is a reserved token in Lean). -/

namespace Hue

/-- An RGB colour `[r, g, b]`, each component in range 0–255
(`Colour` in src/services/philips_hue/colours.ts). -/
abbrev Colour : Type := Int × Int × Int

/-- A group known to the bridge (interface.ts lines 26–35). -/
structure Group where
  id : Int
  name : String
  lights : List Int
deriving DecidableEq, Repr

/-- An individual light (interface.ts lines 42–57).  `brightness` and `colour`
are populated by `updateBridgeLights` exactly when the light is on; the
non-null assertions `light.brightness!` / `light.colour!` in `composeState`
rely on that invariant, and are modelled with a `getD` default. -/
structure Light where
  id : Int
  model : String
  «on» : Bool
  brightness : Option Int
  colour : Option Colour
deriving DecidableEq, Repr

/-- A `GroupScene` known to the bridge (interface.ts lines 66–78). -/
structure Scene where
  id : String
  group : Int
  name : String
  lights : List Int
deriving DecidableEq, Repr

/-- The full bridge snapshot (interface.ts lines 15–19); each `Map` is an
association list in insertion order. -/
structure Bridge where
  groups : List (Int × Group)
  lights : List (Int × Light)
  scenes : List (String × Scene)
deriving DecidableEq, Repr

/-- A scene in state formatting (interface.ts lines 81–87); the colour is the
`[0, 0, 0]` placeholder of interface.ts line 195. -/
structure StateScene where
  name : String
  colour : Colour
deriving DecidableEq, Repr

/-- Composed state for a group (interface.ts lines 91–103). -/
structure State where
  «on» : Bool
  brightness : Int
  colour : Colour
  scenes : List StateScene
deriving DecidableEq, Repr

/-- The errors thrown by the `Interface` methods. -/
inductive HueError where
  | notConnected
  | groupNotFound (group : String)
  | groupEntryMissing (id : Int)
  | invalidBrightness
  | sceneNotFound (scene : String)
  | backend (message : String)
deriving DecidableEq, Repr

/-- `Interface.findGroupIdOrThrow` (interface.ts lines 203–214): linear scan of
the groups map, returning the id of the first group carrying the name, or
throwing when none does. -/
def findGroupIdOrThrow (group : String) (bridge : Bridge) : Except HueError Int :=
  match bridge.groups.find? (fun p => p.2.name == group) with
  | some p => .ok p.1
  | none => .error (.groupNotFound group)

/-- `Math.floor` of the mean of a list of integers (its length is positive at
every use site: `composeState` pushes a `0` sentinel into an empty list). -/
def floorMean (xs : List Int) : Int :=
  Int.fdiv xs.sum (Int.ofNat xs.length)

/-- `Interface.composeState` (interface.ts lines 147–200).  Resolves the group
name to an id, collects the member lights present in the snapshot's lights map
(absent ids are skipped, line 160), ORs their `on` flags, averages brightness
and colour over the powered lights (after pushing `0` / `[0,0,0]` sentinels
when no light is powered), and lists the scenes owned by the group.
`groupEntryMissing` models the runtime failure of the non-null assertion
`bridge.groups.get(id)!` on line 151, which cannot fire since
`findGroupIdOrThrow` found the id among the map entries. -/
def composeState (group : String) (bridge : Bridge) : Except HueError State :=
  match findGroupIdOrThrow group bridge with
  | .error e => .error e
  | .ok id =>
    match mapGet bridge.groups id with
    | none => .error (.groupEntryMissing id)
    | some g =>
      let present := g.lights.filterMap (fun lightId => mapGet bridge.lights lightId)
      let isOn := present.any (fun l => l.«on»)
      let powered := present.filter (fun l => l.«on»)
      let brightnesses := powered.map (fun l => l.brightness.getD 0)
      let colours := powered.map (fun l => l.colour.getD (0, 0, 0))
      let brightnesses := if brightnesses.isEmpty then [0] else brightnesses
      let colours := if colours.isEmpty then [((0 : Int), (0 : Int), (0 : Int))] else colours
      let brightness := floorMean brightnesses
      let colour : Colour :=
        (floorMean (colours.map (fun c => c.1)),
         floorMean (colours.map (fun c => c.2.1)),
         floorMean (colours.map (fun c => c.2.2)))
      let scenes :=
        (bridge.scenes.map (fun p => p.2)).filterMap (fun s =>
          if s.group == id then some (⟨s.name, (0, 0, 0)⟩ : StateScene) else none)
      .ok { «on» := isOn, brightness := brightness, colour := colour, scenes := scenes }

/-- `Interface.updateBridge` (interface.ts lines 302–310): join the three
concurrent fetches; any rejection rejects the whole snapshot construction
(`Promise.all`), so no partial snapshot ever exists. -/
def updateBridge (groupsRes : Except HueError (List (Int × Group)))
    (lightsRes : Except HueError (List (Int × Light)))
    (scenesRes : Except HueError (List (String × Scene))) : Except HueError Bridge :=
  match groupsRes, lightsRes, scenesRes with
  | .ok groups, .ok lights, .ok scenes =>
    .ok { groups := groups, lights := lights, scenes := scenes }
  | .error e, _, _ => .error e
  | _, .error e, _ => .error e
  | _, _, .error e => .error e

/-- The diffing loop of `Interface.synchronize` (interface.ts lines 231–244):
walk the groups of the cached snapshot in map order; skip the ones whose id
disappeared from the fetched snapshot; for the others compose the state of the
group's (old) name against both snapshots and emit the pairs whose states
differ under deep equality. -/
def syncGroups (cached fetched : Bridge) :
    List (Int × Group) → Except HueError (List (String × State))
  | [] => .ok []
  | (groupId, group) :: rest =>
    if (mapGet fetched.groups groupId).isSome then
      match composeState group.name cached with
      | .error e => .error e
      | .ok existingState =>
        match composeState group.name fetched with
        | .error e => .error e
        | .ok updatedState =>
          match syncGroups cached fetched rest with
          | .error e => .error e
          | .ok updates =>
            if existingState = updatedState
            then .ok updates
            else .ok ((group.name, updatedState) :: updates)
    else
      syncGroups cached fetched rest

/-- `Interface.synchronize` (interface.ts lines 222–250), with the mutable
`this.bridge` field threaded explicitly: the second component of the result is
the cached snapshot after the call.  The fetched snapshot is installed as the
cache by the assignment on line 247 only when the connection check, the three
fetches, and the whole diffing loop all complete without throwing; any thrown
error leaves the cache untouched. -/
def synchronizeRun (cached : Bridge) (connected : Bool)
    (groupsRes : Except HueError (List (Int × Group)))
    (lightsRes : Except HueError (List (Int × Light)))
    (scenesRes : Except HueError (List (String × Scene))) :
    Except HueError (List (String × State)) × Bridge :=
  if !connected then (.error .notConnected, cached)
  else
    match updateBridge groupsRes lightsRes scenesRes with
    | .error e => (.error e, cached)
    | .ok fetched =>
      match syncGroups cached fetched cached.groups with
      | .error e => (.error e, cached)
      | .ok updates => (.ok updates, fetched)

/-! ### `Interface.update` and the colour conversion -/

/-- The patch accepted by `Interface.update` (interface.ts lines 107–120);
`none` models an absent property (`hasOwnProperty` fails). -/
structure UpdatePatch where
  «on» : Option Bool
  brightness : Option Int
  colour : Option Colour
  scene : Option String
deriving Repr

/-- The `GroupLightState` accumulated by `Interface.update` before it is sent
to the backend: the fields populated by the builder calls `state.on`,
`state.bri`, `state.xy`, `state.scene`.  The chromaticity type `XY` is kept
abstract (it is produced by the external `@q42philips/hue-color-converter`
library). -/
structure GroupLightState (XY : Type) where
  «on» : Option Bool
  bri : Option Int
  xy : Option XY
  scene : Option String
deriving DecidableEq

/-- The empty `new hue.lightStates.GroupLightState()`. -/
def GroupLightState.empty (XY : Type) : GroupLightState XY :=
  { «on» := none, bri := none, xy := none, scene := none }

/-- `getLightXY` (colours.ts lines 38–40): delegate to the external
`calculateXY(r, g, b, model)` routine, which is passed in as an opaque
function. -/
def getLightXY {XY : Type} (calculateXY : Int → Int → Int → String → XY)
    (colour : Colour) (model : String) : XY :=
  calculateXY colour.1 colour.2.1 colour.2.2 model

/-- `Interface.update` (interface.ts lines 254–294), evaluated against the
cached snapshot `bridge`.  A successful run `.ok (id, state)` models the single
backend call `groups.setGroupState(id, state)` on line 290, issued only after
every patch field has validated and resolved; any `.error` means no backend
call was issued.  Field handling in source order: `on` (coerced to boolean),
`brightness` (range-checked, then scaled by `Math.floor(b / 100 * 254)`, which
for integral percentages equals `⌊b · 254 / 100⌋`), `colour` (converted via
`getLightXY` with the hard-coded model string "LCT010", line 269), and `scene`
(resolved to the id of the first scene of the target group carrying the name,
throwing when there is none). -/
def Interface.update {XY : Type} (calculateXY : Int → Int → Int → String → XY)
    (bridge : Bridge) (group : String) (patch : UpdatePatch) :
    Except HueError (Int × GroupLightState XY) :=
  match findGroupIdOrThrow group bridge with
  | .error e => .error e
  | .ok id =>
    let st := GroupLightState.empty XY
    let st :=
      match patch.«on» with
      | some b => { st with «on» := some b }
      | none => st
    match (match patch.brightness with
           | some b =>
             if b < 0 ∨ b > 100
             then Except.error HueError.invalidBrightness
             else Except.ok { st with bri := some (Int.fdiv (b * 254) 100) }
           | none => Except.ok st) with
    | .error e => .error e
    | .ok st =>
      let st :=
        match patch.colour with
        | some c => { st with xy := some (getLightXY calculateXY c "LCT010") }
        | none => st
      match patch.scene with
      | none => .ok (id, st)
      | some sceneName =>
        match (bridge.scenes.map (fun p => p.2)).find?
                (fun s => s.group == id && s.name == sceneName) with
        | some scene => .ok (id, { st with scene := some scene.id })
        | none => .error (.sceneNotFound sceneName)

end Hue

/-! ## Lemmas about subscription bookkeeping and broadcast delivery -/

/-- `keyClientCount` unfolded over the head subscription. -/
theorem keyClientCount_cons (s : SubscriptionInfo) (rest : List SubscriptionInfo)
    (cmd : String) (args : List Value) (c : Nat) :
    keyClientCount (s :: rest) cmd args c =
      (if matchesKey cmd args s then s.clients.count c else 0)
        + keyClientCount rest cmd args c := by
  by_cases h : matchesKey cmd args s <;>
    simp [keyClientCount, List.filter_cons, h]

/-- A subscription built by the dispatcher for the key it was built for is
matched by `matchesKey`. -/
theorem matchesKey_self (cmd : String) (args : List Value) (clients : List Nat) :
    matchesKey cmd args ⟨clients, cmd, args⟩ = true := by
  simp [matchesKey]

/-- Delivery counts add over concatenated send lists. -/
theorem deliveries_append (xs ys : List (Nat × Obj)) (c : Nat) :
    deliveries (xs ++ ys) c = deliveries xs c + deliveries ys c := by
  simp [deliveries, List.filter_append]

/-- Sending one payload to every client of a set delivers to each client once
per occurrence in the set. -/
theorem deliveries_map_clients (clients : List Nat) (o : Obj) (c : Nat) :
    deliveries (clients.map (fun cl => (cl, o))) c = clients.count c := by
  simp only [deliveries, List.filter_map, List.length_map, List.count_eq_countP,
    List.countP_eq_length_filter]
  exact congrArg List.length (List.filter_congr (fun x _ => rfl))

/-- A broadcast reaches a client once per occurrence of the client in the
subscriptions matching the broadcast key. -/
theorem deliveries_distribute {ρ : Type} (sm : ServiceManager ρ) (cmd : String)
    (args : List Value) (msg : Obj) (c : Nat) :
    deliveries (distribute sm cmd args msg) c = keyClientCount sm.subscriptions cmd args c := by
  show deliveries ((sm.subscriptions.filter (matchesKey cmd args)).flatMap
    (fun s => s.clients.map (fun cl => (cl, mkBroadcast cmd msg)))) c = _
  induction sm.subscriptions with
  | nil => rfl
  | cons s rest ih =>
    rw [keyClientCount_cons, List.filter_cons]
    by_cases h : matchesKey cmd args s
    · rw [if_pos h, if_pos h, List.flatMap_cons, deliveries_append,
        deliveries_map_clients, ih]
    · rw [if_neg h, if_neg h, Nat.zero_add, ih]

/-- Subscribing a client that occurs nowhere under a key makes it occur exactly
once under that key. -/
theorem keyClientCount_subscribeClient_self (subs : List SubscriptionInfo)
    (c : Nat) (cmd : String) (args : List Value)
    (h : keyClientCount subs cmd args c = 0) :
    keyClientCount (subscribeClient subs c cmd args) cmd args c = 1 := by
  induction subs with
  | nil => simp [subscribeClient, keyClientCount, matchesKey_self]
  | cons s rest ih =>
    rw [keyClientCount_cons] at h
    by_cases hm : matchesKey cmd args s
    · rw [if_pos hm] at h
      have hc : s.clients.count c = 0 := by omega
      have hrest : keyClientCount rest cmd args c = 0 := by omega
      have hmem : c ∉ s.clients := List.count_eq_zero.mp hc
      simp only [subscribeClient]
      rw [if_pos hm, if_neg (by simp [hmem]), keyClientCount_cons,
        if_pos (show matchesKey cmd args { s with clients := s.clients ++ [c] } = true by
          simpa [matchesKey] using hm),
        List.count_append, hc, hrest, List.count_singleton]
      simp
    · rw [if_neg hm, Nat.zero_add] at h
      simp only [subscribeClient]
      rw [if_neg hm, keyClientCount_cons, if_neg hm, Nat.zero_add]
      exact ih h

/-- Subscribing one client never changes how often a different client occurs
under the key. -/
theorem keyClientCount_subscribeClient_other (subs : List SubscriptionInfo)
    (c c' : Nat) (cmd : String) (args : List Value) (hne : c' ≠ c) :
    keyClientCount (subscribeClient subs c cmd args) cmd args c' =
      keyClientCount subs cmd args c' := by
  induction subs with
  | nil =>
    simp [subscribeClient, keyClientCount, matchesKey_self, List.count_singleton',
      Ne.symm hne]
  | cons s rest ih =>
    by_cases hm : matchesKey cmd args s
    · by_cases hmem : s.clients.contains c
      · simp only [subscribeClient, if_pos hm, if_pos hmem]
      · simp only [subscribeClient, if_pos hm, if_neg hmem]
        rw [keyClientCount_cons, keyClientCount_cons,
          if_pos (show matchesKey cmd args { s with clients := s.clients ++ [c] } = true by
            simpa [matchesKey] using hm),
          if_pos hm, List.count_append, List.count_singleton']
        simp [Ne.symm hne]
    · simp only [subscribeClient, if_neg hm]
      rw [keyClientCount_cons, keyClientCount_cons, if_neg hm, ih]

/-- After `onClientDisconnected`, the disconnected client occurs in no
subscription. -/
theorem keyClientCount_disconnect_self {ρ : Type} (sm : ServiceManager ρ)
    (c : Nat) (cmd : String) (args : List Value) :
    keyClientCount (onClientDisconnected sm c).subscriptions cmd args c = 0 := by
  show keyClientCount (sm.subscriptions.map _) cmd args c = 0
  induction sm.subscriptions with
  | nil => rfl
  | cons s rest ih =>
    simp only [List.map_cons, keyClientCount_cons, ih, Nat.add_zero]
    have : (s.clients.filter (fun x => x != c)).count c = 0 := by
      rw [List.count_eq_zero]
      intro hmem
      simpa using (List.mem_filter.mp hmem).2
    by_cases hm : matchesKey cmd args { s with clients := s.clients.filter (fun x => x != c) } <;>
      simp [hm, this]

/-- `onClientDisconnected` leaves every other client's occurrences intact. -/
theorem keyClientCount_disconnect_other {ρ : Type} (sm : ServiceManager ρ)
    (c c' : Nat) (cmd : String) (args : List Value) (hne : c' ≠ c) :
    keyClientCount (onClientDisconnected sm c).subscriptions cmd args c' =
      keyClientCount sm.subscriptions cmd args c' := by
  show keyClientCount (sm.subscriptions.map _) cmd args c' = _
  induction sm.subscriptions with
  | nil => rfl
  | cons s rest ih =>
    simp only [List.map_cons, keyClientCount_cons, ih]
    have hcount : (s.clients.filter (fun x => x != c)).count c' = s.clients.count c' := by
      rw [List.count_filter]
      simpa using hne
    have hkey : matchesKey cmd args { s with clients := s.clients.filter (fun x => x != c) } =
        matchesKey cmd args s := by
      simp [matchesKey]
    rw [hkey, hcount]

/-! ## Claim C1 — subscribe via dispatch, then targeted broadcast -/

/-- **C1.**  For every subscribable registered command: dispatching it from
handle `A` and then from handle `B`, with raw bags that collect to structurally
equal positional argument lists and with neither handle yet subscribed under
that key, makes a single `distribute` with that command and those arguments
deliver exactly one message to `A` and exactly one to `B`; after
`onClientDisconnected A`, a further identical `distribute` delivers nothing to
`A` and still exactly one message to `B`. -/
theorem C1_subscription_broadcast {ρ : Type} (sm : ServiceManager ρ) (A B : Nat)
    (cmd : String) (bagA bagB msg : Obj) (sc : RegisteredCommand ρ)
    (args : List Value) (r : ρ)
    (hAB : A ≠ B)
    (hcmd : mapGet sm.commands cmd = some sc)
    (hsub : sc.subscribe = true)
    (hpA : collectParameters cmd sc.parameters bagA = .ok args)
    (hpB : collectParameters cmd sc.parameters bagB = .ok args)
    (hh : sc.handler args = .ok r)
    (hA0 : keyClientCount sm.subscriptions cmd args A = 0)
    (hB0 : keyClientCount sm.subscriptions cmd args B = 0) :
    ∃ sm1 sm2 : ServiceManager ρ,
      dispatchCommand sm A cmd bagA = .ok (some (.handlerResult r), sm1) ∧
      dispatchCommand sm1 B cmd bagB = .ok (some (.handlerResult r), sm2) ∧
      deliveries (distribute sm2 cmd args msg) A = 1 ∧
      deliveries (distribute sm2 cmd args msg) B = 1 ∧
      deliveries (distribute (onClientDisconnected sm2 A) cmd args msg) A = 0 ∧
      deliveries (distribute (onClientDisconnected sm2 A) cmd args msg) B = 1 := by
  refine ⟨{ sm with subscriptions := subscribeClient sm.subscriptions A cmd args },
    { sm with subscriptions :=
        subscribeClient (subscribeClient sm.subscriptions A cmd args) B cmd args },
    ?_, ?_, ?_, ?_, ?_, ?_⟩
  · simp [dispatchCommand, hcmd, hpA, hh, hsub]
  · simp [dispatchCommand, hcmd, hpB, hh, hsub]
  · rw [deliveries_distribute]
    show keyClientCount
      (subscribeClient (subscribeClient sm.subscriptions A cmd args) B cmd args)
      cmd args A = 1
    rw [keyClientCount_subscribeClient_other _ B A cmd args hAB]
    exact keyClientCount_subscribeClient_self _ A cmd args hA0
  · rw [deliveries_distribute]
    show keyClientCount
      (subscribeClient (subscribeClient sm.subscriptions A cmd args) B cmd args)
      cmd args B = 1
    refine keyClientCount_subscribeClient_self _ B cmd args ?_
    rw [keyClientCount_subscribeClient_other _ A B cmd args (Ne.symm hAB)]
    exact hB0
  · rw [deliveries_distribute]
    exact keyClientCount_disconnect_self _ A cmd args
  · rw [deliveries_distribute]
    rw [keyClientCount_disconnect_other _ A B cmd args (Ne.symm hAB)]
    show keyClientCount
      (subscribeClient (subscribeClient sm.subscriptions A cmd args) B cmd args)
      cmd args B = 1
    refine keyClientCount_subscribeClient_self _ B cmd args ?_
    rw [keyClientCount_subscribeClient_other _ A B cmd args (Ne.symm hAB)]
    exact hB0

/-- The `philips-hue-state` command as registered by
`PhilipsHueService.getCommands` (the subscribable state command), with its
handler abstracted into one that records the positional argument list it was
invoked with. -/
def stateCommand : RegisteredCommand (List Value) :=
  { service := "Philips Hue",
    command := "philips-hue-state",
    description := "Retrieve the state of Philips Hue lights in a given group",
    parameters := [⟨"group", false, ParamType.string⟩],
    subscribe := true,
    handler := fun args => .ok args }

/-- A fresh service manager holding only the state command. -/
def smState : ServiceManager (List Value) :=
  { commands := [("philips-hue-state", stateCommand)], subscriptions := [] }

/-- Witness for C1: the spec's scenario at the `philips-hue-state` command with
`group = "Kitchen"`, handles 7 and 9. -/
theorem C1_witness :
    (7 : Nat) ≠ 9 ∧
    mapGet smState.commands "philips-hue-state" = some stateCommand ∧
    keyClientCount smState.subscriptions "philips-hue-state" [Value.str "Kitchen"] 7 = 0 ∧
    ∃ sm1 sm2 : ServiceManager (List Value),
      dispatchCommand smState 7 "philips-hue-state" [("group", Value.str "Kitchen")] =
        .ok (some (.handlerResult [Value.str "Kitchen"]), sm1) ∧
      dispatchCommand sm1 9 "philips-hue-state" [("group", Value.str "Kitchen")] =
        .ok (some (.handlerResult [Value.str "Kitchen"]), sm2) ∧
      deliveries (distribute sm2 "philips-hue-state" [Value.str "Kitchen"]
        [("group", Value.str "Kitchen")]) 7 = 1 ∧
      deliveries (distribute sm2 "philips-hue-state" [Value.str "Kitchen"]
        [("group", Value.str "Kitchen")]) 9 = 1 ∧
      deliveries (distribute (onClientDisconnected sm2 7) "philips-hue-state"
        [Value.str "Kitchen"] [("group", Value.str "Kitchen")]) 7 = 0 ∧
      deliveries (distribute (onClientDisconnected sm2 7) "philips-hue-state"
        [Value.str "Kitchen"] [("group", Value.str "Kitchen")]) 9 = 1 :=
  ⟨by decide, rfl, rfl,
    C1_subscription_broadcast smState 7 9 "philips-hue-state"
      [("group", Value.str "Kitchen")] [("group", Value.str "Kitchen")]
      [("group", Value.str "Kitchen")] stateCommand [Value.str "Kitchen"]
      [Value.str "Kitchen"] (by decide) rfl rfl rfl rfl rfl rfl rfl⟩

/-! ## Claim C3 — the `optional` flag is read off the wrong object (code bug)

`dispatchCommand` tests `parameters.optional` — a property of the raw
parameter bag — where its declared behaviour (the `optional` field documented
in src/service.ts lines 16–17, which the dispatcher otherwise never reads)
requires `description.optional`.  Both directions of the claim fail on the
code, at concrete inputs. -/

/-- **C3** (recording the code bug).  First conjunct: dispatching the state
command with the bag `{optional: true}` — which lacks the **required** `group`
parameter — does not fail with `MissingParameter`; the loop `break`s and the
handler is invoked with the empty argument list (the echoed
`handlerResult []`), after which the client is even subscribed under the empty
key.  Second conjunct: a parameter declared `optional: true` that is missing
from the bag throws `MissingParameter` instead of stopping cleanly. -/
theorem C3_optional_read_from_bag :
    dispatchCommand smState 5 "philips-hue-state" [("optional", Value.bool true)] =
      .ok (some (.handlerResult []),
        { commands := smState.commands,
          subscriptions := [⟨[5], "philips-hue-state", []⟩] }) ∧
    collectParameters "example-command" [⟨"p", true, ParamType.number⟩] [] =
      .error (.missingParameter "example-command" "p") :=
  ⟨rfl, by decide⟩

/-! ## Claim C6 — broadcast payloads and the `command` field -/

/-- A subscription table with client 0 subscribed to the state command for the
`"Kitchen"` group. -/
def smSub : ServiceManager Unit :=
  { commands := [], subscriptions := [⟨[0], "philips-hue-state", [Value.str "Kitchen"]⟩] }

/-- **C6** is false as stated: `distribute` builds `{ command, ...message }`,
so a `command` key inside the message object overwrites the subscribed command
identifier.  Concretely, broadcasting the message `{command: "spoof"}` under
`philips-hue-state` delivers a payload whose `command` field is `"spoof"`. -/
theorem C6_counterexample :
    (distribute smSub "philips-hue-state" [Value.str "Kitchen"]
        [("command", Value.str "spoof")]).map (fun p => objGet p.2 "command") =
      [some (Value.str "spoof")] ∧
    some (Value.str "spoof") ≠ some (Value.str "philips-hue-state") := by
  decide

/-- Inserting a field under one key leaves lookups of a different key
unchanged. -/
theorem objGet_objInsert_ne (o : Obj) (k : String) (v : Value) (k' : String)
    (hne : k ≠ k') : objGet (objInsert o k v) k' = objGet o k' := by
  unfold objInsert
  by_cases h : o.any (fun p => p.1 == k)
  · rw [if_pos h]
    unfold objGet
    congr 1
    clear h
    induction o with
    | nil => rfl
    | cons p rest ih =>
      simp only [List.map_cons, List.find?_cons]
      by_cases hpk : p.1 == k
      · have hp1 : p.1 = k := by simpa using hpk
        rw [if_pos hpk]
        have h1 : ((k, v).1 == k') = false := by simpa using hne
        have h2 : (p.1 == k') = false := by simp [hp1]; exact hne
        simp only [h1, h2, cond_false]
        exact ih
      · rw [if_neg hpk]
        by_cases hk' : p.1 == k'
        · simp [hk']
        · simp only [Bool.not_eq_true] at hk'
          simp only [hk', cond_false]
          exact ih
  · rw [if_neg h]
    unfold objGet
    rw [List.find?_append]
    have : List.find? (fun p => p.1 == k') [(k, v)] = none := by
      simp [List.find?_cons, hne]
    rw [this, Option.or_none]

/-- Spreading a message whose keys avoid `command` over an accumulator keeps
the accumulator's `command` binding. -/
theorem objGet_foldl_insert (msg : Obj) : ∀ (acc : Obj) (v : Value),
    (∀ p ∈ msg, p.1 ≠ "command") →
    objGet acc "command" = some v →
    objGet (msg.foldl (fun o p => objInsert o p.1 p.2) acc) "command" = some v := by
  induction msg with
  | nil => exact fun _ _ _ hacc => hacc
  | cons p rest ih =>
    intro acc v hkeys hacc
    simp only [List.foldl_cons]
    refine ih _ v (fun q hq => hkeys q (List.mem_cons_of_mem _ hq)) ?_
    rw [objGet_objInsert_ne _ _ _ _ (hkeys p (List.mem_cons_self _ _))]
    exact hacc

/-- **C6 amended.**  Every message delivered by `distribute` carries a
`command` field equal to the subscribed command identifier **provided the
message object does not itself contain a `command` key**; a `command` key in
the message overrides the identifier (see the counterexample). -/
theorem C6_amended {ρ : Type} (sm : ServiceManager ρ) (cmd : String)
    (params : List Value) (msg : Obj) (c : Nat) (o : Obj)
    (hmem : (c, o) ∈ distribute sm cmd params msg)
    (hkeys : ∀ p ∈ msg, p.1 ≠ "command") :
    objGet o "command" = some (Value.str cmd) := by
  have ho : o = mkBroadcast cmd msg := by
    have h1 : (c, o) ∈ (sm.subscriptions.filter (matchesKey cmd params)).flatMap
        (fun s => s.clients.map (fun cl => (cl, mkBroadcast cmd msg))) := hmem
    rw [List.mem_flatMap] at h1
    obtain ⟨s, _, hin⟩ := h1
    rw [List.mem_map] at hin
    obtain ⟨cl, _, heq⟩ := hin
    exact (congrArg Prod.snd heq).symm
  rw [ho]
  exact objGet_foldl_insert msg _ _ hkeys rfl

/-- Witness for C6 amended: a broadcast of `{group: "Kitchen"}` (no `command`
key) under `philips-hue-state` reaches client 0 with
`command = "philips-hue-state"`. -/
theorem C6_witness :
    ((0 : Nat), [("command", Value.str "philips-hue-state"),
                 ("group", Value.str "Kitchen")]) ∈
      distribute smSub "philips-hue-state" [Value.str "Kitchen"]
        [("group", Value.str "Kitchen")] ∧
    (∀ p ∈ [("group", Value.str "Kitchen")], Prod.fst p ≠ "command") ∧
    objGet [("command", Value.str "philips-hue-state"),
            ("group", Value.str "Kitchen")] "command" =
      some (Value.str "philips-hue-state") :=
  ⟨by decide, by decide,
    C6_amended smSub "philips-hue-state" [Value.str "Kitchen"]
      [("group", Value.str "Kitchen")] 0 _ (by decide) (by decide)⟩

/-! ## Concrete snapshots used by the Hue claims -/

namespace Hue

/-- The "Kitchen" group of the spec's scenario: id 1, lights 10 and 11. -/
def kitchenGroup : Group := ⟨1, "Kitchen", [10, 11]⟩

/-- The spec scenario snapshot: light 10 on at brightness 50 with colour
`[255, 0, 0]`, light 11 off, one scene "Relax" owned by the group. -/
def kitchenBridge : Bridge :=
  { groups := [(1, kitchenGroup)],
    lights := [(10, ⟨10, "LCT010", true, some 50, some (255, 0, 0)⟩),
               (11, ⟨11, "LCT010", false, none, none⟩)],
    scenes := [("s1", ⟨"s1", 1, "Relax", [10, 11]⟩)] }

/-- The same snapshot after both lights were switched off. -/
def kitchenBridgeOff : Bridge :=
  { groups := [(1, kitchenGroup)],
    lights := [(10, ⟨10, "LCT010", false, none, none⟩),
               (11, ⟨11, "LCT010", false, none, none⟩)],
    scenes := [("s1", ⟨"s1", 1, "Relax", [10, 11]⟩)] }

/-- A snapshot whose single group kept its id (1) but was renamed "A"… -/
def cachedA : Bridge := { groups := [(1, ⟨1, "A", []⟩)], lights := [], scenes := [] }

/-- …to "B" in the freshly fetched snapshot. -/
def fetchedB : Bridge := { groups := [(1, ⟨1, "B", []⟩)], lights := [], scenes := [] }

end Hue

/-! ## Claim C2 — is the fetched snapshot installed unconditionally? -/

/-- **C2 counterexample.**  With the cached snapshot holding group id 1 named
`"A"` and a successfully fetched snapshot in which id 1 is now named `"B"`,
`synchronize()` does **not** finish by installing the fetched snapshot: the
diff loop calls `composeState("A")` against the fetched snapshot, which throws
`NotFound`, so the call fails and the cache keeps the old snapshot. -/
theorem C2_counterexample :
    Hue.synchronizeRun Hue.cachedA true (.ok Hue.fetchedB.groups)
        (.ok Hue.fetchedB.lights) (.ok Hue.fetchedB.scenes) =
      (.error (.groupNotFound "A"), Hue.cachedA) ∧
    Hue.cachedA ≠ Hue.fetchedB := by decide

/-- **C2 amended.**  When the diff loop over the cached groups completes
without throwing, the fetched snapshot unconditionally becomes the new cache
(even when the computed delta set is empty); but if some cached group's id
survives while its name is absent from the fetched snapshot (e.g. the group
was renamed), the diff loop throws `NotFound` before the install and the cache
keeps the previous snapshot. -/
theorem C2_amended (cached fetched : Hue.Bridge) (updates : List (String × Hue.State))
    (h : Hue.syncGroups cached fetched cached.groups = .ok updates) :
    Hue.synchronizeRun cached true (.ok fetched.groups) (.ok fetched.lights)
      (.ok fetched.scenes) = (.ok updates, fetched) := by
  show (match Hue.syncGroups cached fetched cached.groups with
        | .error e => ((Except.error e : Except Hue.HueError _), cached)
        | .ok u => (Except.ok u, fetched)) = (Except.ok updates, fetched)
  rw [h]

/-- Witness for C2 amended: synchronizing the Kitchen snapshot against the
all-off fetch completes the diff (one delta) and installs the fetched
snapshot. -/
theorem C2_witness :
    Hue.syncGroups Hue.kitchenBridge Hue.kitchenBridgeOff Hue.kitchenBridge.groups =
      .ok [("Kitchen", ⟨false, 0, (0, 0, 0), [⟨"Relax", (0, 0, 0)⟩]⟩)] ∧
    Hue.synchronizeRun Hue.kitchenBridge true (.ok Hue.kitchenBridgeOff.groups)
      (.ok Hue.kitchenBridgeOff.lights) (.ok Hue.kitchenBridgeOff.scenes) =
      (.ok [("Kitchen", ⟨false, 0, (0, 0, 0), [⟨"Relax", (0, 0, 0)⟩]⟩)],
       Hue.kitchenBridgeOff) :=
  ⟨by decide, C2_amended _ _ _ (by decide)⟩

/-! ## Claim C5 — a fetch failure fails the cycle and keeps the cache -/

/-- **C5.**  If any of the three concurrent backend fetches rejects, the whole
`synchronize()` call fails (so zero group deltas are reported for the cycle)
and the previously cached snapshot is left fully unchanged. -/
theorem C5_fetch_failure (cached : Hue.Bridge) (connected : Bool)
    (gR : Except Hue.HueError (List (Int × Hue.Group)))
    (lR : Except Hue.HueError (List (Int × Hue.Light)))
    (sR : Except Hue.HueError (List (String × Hue.Scene)))
    (h : (∃ e, gR = .error e) ∨ (∃ e, lR = .error e) ∨ (∃ e, sR = .error e)) :
    (Hue.synchronizeRun cached connected gR lR sR).2 = cached ∧
    ∃ e, (Hue.synchronizeRun cached connected gR lR sR).1 = .error e := by
  cases connected
  · exact ⟨rfl, .notConnected, rfl⟩
  · cases gR with
    | error e => cases lR <;> cases sR <;> exact ⟨rfl, _, rfl⟩
    | ok g =>
      cases lR with
      | error e => cases sR <;> exact ⟨rfl, _, rfl⟩
      | ok l =>
        cases sR with
        | error e => exact ⟨rfl, _, rfl⟩
        | ok s => rcases h with ⟨e, he⟩ | ⟨e, he⟩ | ⟨e, he⟩ <;> cases he

/-- Witness for C5: a rejected lights fetch with the Kitchen snapshot cached. -/
theorem C5_witness :
    ((∃ e, (Except.ok Hue.kitchenBridge.groups :
        Except Hue.HueError (List (Int × Hue.Group))) = .error e) ∨
      (∃ e, (Except.error (.backend "connect ECONNREFUSED") :
        Except Hue.HueError (List (Int × Hue.Light))) = .error e) ∨
      (∃ e, (Except.ok Hue.kitchenBridge.scenes :
        Except Hue.HueError (List (String × Hue.Scene))) = .error e)) ∧
    (Hue.synchronizeRun Hue.kitchenBridge true (.ok Hue.kitchenBridge.groups)
      (.error (.backend "connect ECONNREFUSED")) (.ok Hue.kitchenBridge.scenes)).2 =
      Hue.kitchenBridge ∧
    ∃ e, (Hue.synchronizeRun Hue.kitchenBridge true (.ok Hue.kitchenBridge.groups)
      (.error (.backend "connect ECONNREFUSED")) (.ok Hue.kitchenBridge.scenes)).1 =
      .error e :=
  ⟨Or.inr (Or.inl ⟨_, rfl⟩),
    C5_fetch_failure Hue.kitchenBridge true _ _ _ (Or.inr (Or.inl ⟨_, rfl⟩))⟩

/-! ## Claim C8 — diffing idempotence -/

/-- `composeState` succeeds on the name of any group that is an entry of the
snapshot's group map. -/
theorem Hue.composeState_mem_ok (B : Hue.Bridge) (gid : Int) (g : Hue.Group)
    (hmem : (gid, g) ∈ B.groups) : ∃ s, Hue.composeState g.name B = .ok s := by
  have h1 : (B.groups.find? (fun p => p.2.name == g.name)).isSome := by
    rw [List.find?_isSome]
    exact ⟨(gid, g), hmem, by simp⟩
  obtain ⟨q, hq⟩ := Option.isSome_iff_exists.mp h1
  have hqmem : q ∈ B.groups := List.mem_of_find?_eq_some hq
  have h2 : (B.groups.find? (fun p => p.1 == q.1)).isSome := by
    rw [List.find?_isSome]
    exact ⟨q, hqmem, by simp⟩
  obtain ⟨q', hq'⟩ := Option.isSome_iff_exists.mp h2
  have hfind : Hue.findGroupIdOrThrow g.name B = .ok q.1 := by
    unfold Hue.findGroupIdOrThrow
    rw [hq]
  have hmap : mapGet B.groups q.1 = some q'.2 := by
    rw [mapGet, hq']
    rfl
  cases hcs : Hue.composeState g.name B with
  | ok s => exact ⟨s, rfl⟩
  | error e =>
    unfold Hue.composeState at hcs
    simp only [hfind, hmap] at hcs
    exact Except.noConfusion hcs

/-- An entry of the group map is found by a key lookup for its own key. -/
theorem Hue.mapGet_isSome_of_mem {β : Type} (m : List (Int × β)) (k : Int) (v : β)
    (hmem : (k, v) ∈ m) : (mapGet m k).isSome := by
  have h : (m.find? (fun p => p.1 == k)).isSome := by
    rw [List.find?_isSome]
    exact ⟨(k, v), hmem, by simp⟩
  obtain ⟨q, hq⟩ := Option.isSome_iff_exists.mp h
  rw [mapGet, hq]
  rfl

/-- Diffing a snapshot against itself over any sub-collection of its own group
entries yields no deltas: both `composeState` calls are literally the same
computation. -/
theorem Hue.syncGroups_self (B : Hue.Bridge) :
    ∀ gs : List (Int × Hue.Group), (∀ p ∈ gs, p ∈ B.groups) →
      Hue.syncGroups B B gs = .ok [] := by
  intro gs
  induction gs with
  | nil => intro _; rfl
  | cons p rest ih =>
    intro hsub
    obtain ⟨gid, g⟩ := p
    have hmem : (gid, g) ∈ B.groups := hsub _ (List.mem_cons_self _ _)
    have hsome : (mapGet B.groups gid).isSome :=
      Hue.mapGet_isSome_of_mem B.groups gid g hmem
    obtain ⟨s, hs⟩ := Hue.composeState_mem_ok B gid g hmem
    simp only [Hue.syncGroups, hsome, if_true, hs,
      ih (fun q hq => hsub q (List.mem_cons_of_mem _ hq))]

/-- **C8.**  If a `synchronize()` call succeeds (installing the snapshot built
from the fetched groups/lights/scenes data), then a second call for which the
backend returns the **same** data on all three fetches returns an empty delta
map (and keeps that same snapshot installed). -/
theorem C8_sync_idempotent (cached : Hue.Bridge)
    (G : List (Int × Hue.Group)) (L : List (Int × Hue.Light))
    (S : List (String × Hue.Scene)) (u : List (String × Hue.State)) (F : Hue.Bridge)
    (h : Hue.synchronizeRun cached true (.ok G) (.ok L) (.ok S) = (.ok u, F)) :
    Hue.synchronizeRun F true (.ok G) (.ok L) (.ok S) = (.ok [], F) := by
  have hF : F = ⟨G, L, S⟩ := by
    have h' : (match Hue.syncGroups cached ⟨G, L, S⟩ cached.groups with
        | .error e => ((Except.error e : Except Hue.HueError _), cached)
        | .ok updates => (Except.ok updates, (⟨G, L, S⟩ : Hue.Bridge))) = (.ok u, F) := h
    cases hsync : Hue.syncGroups cached ⟨G, L, S⟩ cached.groups with
    | error e => rw [hsync] at h'; simp at h'
    | ok updates =>
      rw [hsync] at h'
      exact (congrArg Prod.snd h').symm
  subst hF
  show (match Hue.syncGroups ⟨G, L, S⟩ ⟨G, L, S⟩ ((⟨G, L, S⟩ : Hue.Bridge)).groups with
        | .error e => ((Except.error e : Except Hue.HueError _), (⟨G, L, S⟩ : Hue.Bridge))
        | .ok updates => (Except.ok updates, (⟨G, L, S⟩ : Hue.Bridge))) =
      (Except.ok [], (⟨G, L, S⟩ : Hue.Bridge))
  rw [Hue.syncGroups_self _ _ (fun _ hp => hp)]

/-- Witness for C8: a successful synchronization onto the all-off Kitchen
snapshot, then a second cycle with identical backend data yielding no deltas. -/
theorem C8_witness :
    Hue.synchronizeRun Hue.kitchenBridge true (.ok Hue.kitchenBridgeOff.groups)
      (.ok Hue.kitchenBridgeOff.lights) (.ok Hue.kitchenBridgeOff.scenes) =
      (.ok [("Kitchen", ⟨false, 0, (0, 0, 0), [⟨"Relax", (0, 0, 0)⟩]⟩)],
       Hue.kitchenBridgeOff) ∧
    Hue.synchronizeRun Hue.kitchenBridgeOff true (.ok Hue.kitchenBridgeOff.groups)
      (.ok Hue.kitchenBridgeOff.lights) (.ok Hue.kitchenBridgeOff.scenes) =
      (.ok [], Hue.kitchenBridgeOff) :=
  ⟨by decide,
    C8_sync_idempotent Hue.kitchenBridge Hue.kitchenBridgeOff.groups
      Hue.kitchenBridgeOff.lights Hue.kitchenBridgeOff.scenes
      [("Kitchen", ⟨false, 0, (0, 0, 0), [⟨"Relax", (0, 0, 0)⟩]⟩)]
      Hue.kitchenBridgeOff (by decide)⟩

/-! ## Claim C4 — the composed-state formula -/

/-- The composed state as the spec words it: `on` is the logical OR of the
member lights' `on` flags; `brightness` is the floor of the mean brightness
over currently-on member lights, `0` if none are on; `colour` is the
component-wise floor of the mean RGB over currently-on member lights,
`[0, 0, 0]` if none are on; `scenes` lists the scenes owned by the group.
Stated as a second definition, to be compared with `composeState` as
translated from the source. -/
def Hue.composeStateSpec (id : Int) (g : Hue.Group) (bridge : Hue.Bridge) : Hue.State :=
  let members := g.lights.filterMap (fun lightId => mapGet bridge.lights lightId)
  let powered := members.filter (fun l => l.«on»)
  { «on» := members.any (fun l => l.«on»),
    brightness :=
      if powered.isEmpty then 0
      else Hue.floorMean (powered.map (fun l => l.brightness.getD 0)),
    colour :=
      if powered.isEmpty then (0, 0, 0)
      else
        (Hue.floorMean (powered.map (fun l => (l.colour.getD (0, 0, 0)).1)),
         Hue.floorMean (powered.map (fun l => (l.colour.getD (0, 0, 0)).2.1)),
         Hue.floorMean (powered.map (fun l => (l.colour.getD (0, 0, 0)).2.2))),
    scenes := (bridge.scenes.map (fun p => p.2)).filterMap (fun s =>
      if s.group == id then some (⟨s.name, (0, 0, 0)⟩ : Hue.StateScene) else none) }

/-- The `0`-sentinel pushed into an empty brightness list gives the same mean
as the spec's "0 if none are on" case split. -/
theorem Hue.floorMean_map_sentinel (xs : List Hue.Light) (f : Hue.Light → Int) :
    Hue.floorMean (if (xs.map f).isEmpty then [0] else xs.map f) =
      if xs.isEmpty then 0 else Hue.floorMean (xs.map f) := by
  cases xs with
  | nil =>
    show Hue.floorMean [0] = (0 : Int)
    decide
  | cons a as => rfl

/-- The `[0, 0, 0]`-sentinel pushed into an empty colour list gives the same
component-wise means as the spec's "[0,0,0] if none are on" case split. -/
theorem Hue.floorMean_colour_triple (xs : List Hue.Light)
    (f : Hue.Light → Hue.Colour) :
    ((Hue.floorMean ((if (xs.map f).isEmpty
        then [((0 : Int), (0 : Int), (0 : Int))] else xs.map f).map (fun c => c.1)),
      Hue.floorMean ((if (xs.map f).isEmpty
        then [((0 : Int), (0 : Int), (0 : Int))] else xs.map f).map (fun c => c.2.1)),
      Hue.floorMean ((if (xs.map f).isEmpty
        then [((0 : Int), (0 : Int), (0 : Int))] else xs.map f).map (fun c => c.2.2))) :
      Hue.Colour) =
      if xs.isEmpty then ((0 : Int), (0 : Int), (0 : Int))
      else (Hue.floorMean (xs.map (fun l => (f l).1)),
            Hue.floorMean (xs.map (fun l => (f l).2.1)),
            Hue.floorMean (xs.map (fun l => (f l).2.2))) := by
  cases xs with
  | nil =>
    show ((Hue.floorMean [(0 : Int)], Hue.floorMean [(0 : Int)],
      Hue.floorMean [(0 : Int)]) : Hue.Colour) = ((0 : Int), (0 : Int), (0 : Int))
    decide
  | cons a as =>
    show ((Hue.floorMean ((List.map f (a :: as)).map (fun c => c.1)),
           Hue.floorMean ((List.map f (a :: as)).map (fun c => c.2.1)),
           Hue.floorMean ((List.map f (a :: as)).map (fun c => c.2.2))) : Hue.Colour) =
        (Hue.floorMean (List.map (fun l => (f l).1) (a :: as)),
         Hue.floorMean (List.map (fun l => (f l).2.1) (a :: as)),
         Hue.floorMean (List.map (fun l => (f l).2.2) (a :: as)))
    rw [List.map_map, List.map_map, List.map_map]
    rfl

/-- **C4.**  For every snapshot and every group name resolving in it,
`composeState` returns exactly the spec's composed-state formula: OR of the
`on` flags, floor of the mean brightness over powered lights (0 when none),
component-wise floor of the mean RGB over powered lights ([0,0,0] when none),
and the scenes owned by the group. -/
theorem C4_composeState_formula (bridge : Hue.Bridge) (group : String)
    (id : Int) (g : Hue.Group)
    (hid : Hue.findGroupIdOrThrow group bridge = .ok id)
    (hg : mapGet bridge.groups id = some g) :
    Hue.composeState group bridge = .ok (Hue.composeStateSpec id g bridge) := by
  unfold Hue.composeState
  simp only [hid, hg, Hue.composeStateSpec]
  refine congrArg Except.ok ?_
  congr 1
  · exact Hue.floorMean_map_sentinel _ _
  · exact Hue.floorMean_colour_triple _ _

/-- Witness for C4: the spec's Kitchen scenario — group id 1 with lights
[10, 11], light 10 on at brightness 50 and colour [255, 0, 0], light 11 off —
composes to `{on: true, brightness: 50, colour: [255,0,0]}` plus the group's
scene list. -/
theorem C4_witness :
    Hue.findGroupIdOrThrow "Kitchen" Hue.kitchenBridge = .ok 1 ∧
    mapGet Hue.kitchenBridge.groups 1 = some Hue.kitchenGroup ∧
    Hue.composeState "Kitchen" Hue.kitchenBridge =
      .ok (Hue.composeStateSpec 1 Hue.kitchenGroup Hue.kitchenBridge) ∧
    Hue.composeStateSpec 1 Hue.kitchenGroup Hue.kitchenBridge =
      ⟨true, 50, (255, 0, 0), [⟨"Relax", (0, 0, 0)⟩]⟩ :=
  ⟨by decide, by decide,
    C4_composeState_formula Hue.kitchenBridge "Kitchen" 1 Hue.kitchenGroup
      (by decide) (by decide),
    by decide⟩

/-! ## Claim C10 — `composeState` tolerates absent member light ids -/

/-- **C10.**  For every snapshot and group name that resolves in it,
`composeState` succeeds even when member light ids are absent from the lights
map (absent ids are skipped by the `has` check); and when no member light is
both present and on, the result is `{on: false, brightness: 0, colour:
[0,0,0]}` together with the group's scene list. -/
theorem C10_composeState_total (bridge : Hue.Bridge) (group : String)
    (id : Int) (g : Hue.Group)
    (hid : Hue.findGroupIdOrThrow group bridge = .ok id)
    (hg : mapGet bridge.groups id = some g) :
    (∃ s, Hue.composeState group bridge = .ok s) ∧
    ((g.lights.filterMap (fun lightId => mapGet bridge.lights lightId)).all
        (fun l => !l.«on») = true →
      Hue.composeState group bridge =
        .ok { «on» := false, brightness := 0, colour := (0, 0, 0),
              scenes := (bridge.scenes.map (fun p => p.2)).filterMap (fun s =>
                if s.group == id
                then some (⟨s.name, (0, 0, 0)⟩ : Hue.StateScene) else none) }) := by
  constructor
  · unfold Hue.composeState
    simp only [hid, hg]
    exact ⟨_, rfl⟩
  · intro hall
    unfold Hue.composeState
    simp only [hid, hg]
    have hpow : (g.lights.filterMap
        (fun lightId => mapGet bridge.lights lightId)).filter (fun l => l.«on») = [] := by
      rw [List.filter_eq_nil_iff]
      intro l hl
      have h := List.all_eq_true.mp hall l hl
      simp only [Bool.not_eq_true'] at h
      simp [h]
    have hany : (g.lights.filterMap
        (fun lightId => mapGet bridge.lights lightId)).any (fun l => l.«on») = false := by
      rw [List.any_eq_false]
      intro l hl
      have h := List.all_eq_true.mp hall l hl
      simp only [Bool.not_eq_true'] at h
      simp [h]
    rw [hpow, hany]
    rfl

/-- A snapshot in which the "Patio" group references light 99 that is absent
from the lights map (e.g. unreachable and filtered out by
`updateBridgeLights`), while light 10 is present but off. -/
def Hue.patioBridge : Hue.Bridge :=
  { groups := [(1, ⟨1, "Patio", [10, 99]⟩)],
    lights := [(10, ⟨10, "LWB010", false, none, none⟩)],
    scenes := [("s2", ⟨"s2", 1, "Evening", [10]⟩)] }

/-- Witness for C10: composing the "Patio" group, with one absent member light
and one present-but-off member light, succeeds and yields the all-off state. -/
theorem C10_witness :
    Hue.findGroupIdOrThrow "Patio" Hue.patioBridge = .ok 1 ∧
    mapGet Hue.patioBridge.groups 1 = some ⟨1, "Patio", [10, 99]⟩ ∧
    ((Hue.Group.mk 1 "Patio" [10, 99]).lights.filterMap
      (fun lightId => mapGet Hue.patioBridge.lights lightId)).all (fun l => !l.«on») = true ∧
    Hue.composeState "Patio" Hue.patioBridge =
      .ok ⟨false, 0, (0, 0, 0), [⟨"Evening", (0, 0, 0)⟩]⟩ :=
  ⟨by decide, by decide, by decide,
    (C10_composeState_total Hue.patioBridge "Patio" 1 ⟨1, "Patio", [10, 99]⟩
      (by decide) (by decide)).2 (by decide)⟩

/-! ## Claim C7 — scene resolution failures issue no backend call -/

/-- A trivial stand-in for the external chromaticity conversion, used by the
concrete evaluations. -/
def Hue.unitXY : Int → Int → Int → String → Unit := fun _ _ _ _ => ()

/-- **C7 counterexample.**  The claim promises a `NotFound` failure for
*every* patch whose scene name is absent from the target group, but brightness
validation runs first: the patch `{brightness: 200, scene: "Movie Night"}`
against the Kitchen group fails with the brightness `InvalidArgument` error,
not `NotFound` (still, no backend call is issued). -/
theorem C7_counterexample :
    Hue.Interface.update Hue.unitXY Hue.kitchenBridge "Kitchen"
        ⟨none, some 200, none, some "Movie Night"⟩ = .error .invalidBrightness ∧
    Hue.HueError.invalidBrightness ≠ Hue.HueError.sceneNotFound "Movie Night" := by
  decide

/-- **C7 amended.**  For every group that resolves to an id and every patch
whose scene name does not belong to any scene of that group in the cached
snapshot, `update` fails and no backend `setGroupState` call is issued (the
call happens only after all patch fields have validated and resolved); the
failure is the scene `NotFound` error provided the rest of the patch
validates, i.e. provided the patch's brightness, when present, lies within
`[0, 100]` (an out-of-range brightness fails first, with `InvalidArgument`). -/
theorem C7_scene_resolution (bridge : Hue.Bridge) {XY : Type}
    (calculateXY : Int → Int → Int → String → XY) (group : String)
    (patch : Hue.UpdatePatch) (id : Int) (sname : String)
    (hid : Hue.findGroupIdOrThrow group bridge = .ok id)
    (hscene : patch.scene = some sname)
    (hnone : ∀ p ∈ bridge.scenes, (p.2).group = id → (p.2).name ≠ sname) :
    (∃ e, Hue.Interface.update calculateXY bridge group patch = .error e) ∧
    ((patch.brightness = none ∨ ∃ b, patch.brightness = some b ∧ 0 ≤ b ∧ b ≤ 100) →
      Hue.Interface.update calculateXY bridge group patch =
        .error (.sceneNotFound sname)) := by
  have hfind : (bridge.scenes.map (fun p => p.2)).find?
      (fun s => s.group == id && s.name == sname) = none := by
    rw [List.find?_eq_none]
    intro s hs
    rw [List.mem_map] at hs
    obtain ⟨p, hp, rfl⟩ := hs
    simp only [Bool.and_eq_true, beq_iff_eq, not_and]
    exact hnone p hp
  constructor
  · cases hb : patch.brightness with
    | none =>
      refine ⟨.sceneNotFound sname, ?_⟩
      unfold Hue.Interface.update
      simp only [hid, hb, hscene, hfind]
    | some b =>
      by_cases hrange : b < 0 ∨ b > 100
      · refine ⟨.invalidBrightness, ?_⟩
        unfold Hue.Interface.update
        simp only [hid, hb, if_pos hrange]
      · refine ⟨.sceneNotFound sname, ?_⟩
        unfold Hue.Interface.update
        simp only [hid, hb, if_neg hrange, hscene, hfind]
  · intro hbr
    unfold Hue.Interface.update
    rcases hbr with hbnone | ⟨b, hb, hb0, hb100⟩
    · simp only [hid, hbnone, hscene, hfind]
    · have hrange : ¬(b < 0 ∨ b > 100) := by omega
      simp only [hid, hb, if_neg hrange, hscene, hfind]

/-- Witness for C7 amended: the spec's scenario — `update("Kitchen", {scene:
"Movie Night"})` with a valid brightness alongside, where no scene named
"Movie Night" belongs to group 1 — fails with the scene `NotFound` error. -/
theorem C7_witness :
    Hue.findGroupIdOrThrow "Kitchen" Hue.kitchenBridge = .ok 1 ∧
    Hue.Interface.update Hue.unitXY Hue.kitchenBridge "Kitchen"
        ⟨none, some 50, none, some "Movie Night"⟩ =
      .error (.sceneNotFound "Movie Night") :=
  ⟨by decide,
    (C7_scene_resolution Hue.kitchenBridge Hue.unitXY "Kitchen"
      ⟨none, some 50, none, some "Movie Night"⟩ 1 "Movie Night"
      (by decide) rfl (by decide)).2 (Or.inr ⟨50, rfl, by decide, by decide⟩)⟩

/-! ## Claim C9 — the colour conversion always uses the "LCT010" gamut model -/

/-- **C9.**  For every update whose patch contains a colour and that reaches
the backend call, the chromaticity written into the issued state is the
conversion of that colour with the single hard-coded gamut model string
"LCT010" — the statement quantifies over every snapshot (hence over every
combination of model strings of the lights actually in the target group) and
over the external conversion routine itself. -/
theorem C9_colour_gamut_LCT010 {XY : Type}
    (calculateXY : Int → Int → Int → String → XY) (bridge : Hue.Bridge)
    (group : String) (patch : Hue.UpdatePatch) (c : Hue.Colour)
    (id : Int) (st : Hue.GroupLightState XY)
    (hc : patch.colour = some c)
    (hok : Hue.Interface.update calculateXY bridge group patch = .ok (id, st)) :
    st.xy = some (calculateXY c.1 c.2.1 c.2.2 "LCT010") := by
  unfold Hue.Interface.update at hok
  cases hfind : Hue.findGroupIdOrThrow group bridge with
  | error e => rw [hfind] at hok; exact Except.noConfusion hok
  | ok gid =>
    rw [hfind] at hok
    cases hb : patch.brightness with
    | none =>
      simp only [hb, hc] at hok
      cases hs : patch.scene with
      | none =>
        simp only [hs] at hok
        obtain ⟨h1, h2⟩ := Prod.mk.inj (Except.ok.inj hok)
        subst h2
        rfl
      | some sn =>
        simp only [hs] at hok
        cases hfs : (bridge.scenes.map (fun p => p.2)).find?
            (fun s => s.group == gid && s.name == sn) with
        | none => rw [hfs] at hok; exact Except.noConfusion hok
        | some sc =>
          rw [hfs] at hok
          obtain ⟨h1, h2⟩ := Prod.mk.inj (Except.ok.inj hok)
          subst h2
          rfl
    | some b =>
      by_cases hrange : b < 0 ∨ b > 100
      · simp only [hb, if_pos hrange] at hok
        exact Except.noConfusion hok
      · simp only [hb, if_neg hrange, hc] at hok
        cases hs : patch.scene with
        | none =>
          simp only [hs] at hok
          obtain ⟨h1, h2⟩ := Prod.mk.inj (Except.ok.inj hok)
          subst h2
          rfl
        | some sn =>
          simp only [hs] at hok
          cases hfs : (bridge.scenes.map (fun p => p.2)).find?
              (fun s => s.group == gid && s.name == sn) with
          | none => rw [hfs] at hok; exact Except.noConfusion hok
          | some sc =>
            rw [hfs] at hok
            obtain ⟨h1, h2⟩ := Prod.mk.inj (Except.ok.inj hok)
            subst h2
            rfl

/-- A recording stand-in for the external `calculateXY` routine: it returns
its own arguments, making the model string passed by `update` observable. -/
def Hue.recordXY : Int → Int → Int → String → Int × Int × Int × String :=
  fun r g b model => (r, g, b, model)

/-- Witness for C9: a colour-only update against the Kitchen snapshot (whose
lights carry the model "LCT010" anyway — but the theorem holds for every
snapshot) issues a state whose chromaticity was computed with "LCT010". -/
theorem C9_witness :
    Hue.Interface.update Hue.recordXY Hue.kitchenBridge "Kitchen"
        ⟨none, none, some (255, 0, 0), none⟩ =
      .ok (1, ⟨none, none, some (255, 0, 0, "LCT010"), none⟩) ∧
    (Hue.GroupLightState.mk none none (some (255, 0, 0, "LCT010")) none).xy =
      some (Hue.recordXY 255 0 0 "LCT010") :=
  ⟨by decide,
    C9_colour_gamut_LCT010 Hue.recordXY Hue.kitchenBridge "Kitchen"
      ⟨none, none, some (255, 0, 0), none⟩ (255, 0, 0) 1
      ⟨none, none, some (255, 0, 0, "LCT010"), none⟩ rfl (by decide)⟩
